import Mathlib

/-!
# Verification of the Foobr financial dashboard engine

Shallow embedding of `src/financial_management.py`: the financial
derivation function `calculate_financials`, the ledger upsert / CSV
serialisation in `save_to_csv`, the summary aggregation
`generate_summary`, the period filter `filter_data_by_period`, the
CSV merge/import logic, and the JSON persistence round trip
(`save_data_to_file` / `load_data_from_file`).

Currency amounts are Python floats in the source; they are modelled as
rationals (`ℚ`), so the exact arithmetic identities of the formula
chain are provable.  Order counts are modelled as `ℕ` (the UI widget
enforces `min_value=0` and integer step).
-/

namespace Foobr

/-- The dictionary returned by `calculate_financials` (lines 130-139 of
the source): the six derived metrics plus the echoed order count and
the guarded average order value. -/
structure FinResults where
  balanceAfterRepairs : ℚ
  totalDailyExpenses : ℚ
  balanceAfterExpenses : ℚ
  foodPurchased : ℚ
  closingBalance : ℚ
  revenue : ℚ
  orders : ℕ
  averageOrderValue : ℚ
deriving Repr, DecidableEq

/-- Embedding of `calculate_financials` (source lines 106-139): the
fixed formula chain plus the `orders > 0` division guard. -/
def calculate_financials (starting_balance bike_repairs fuel airtime
    end_of_day_balance payout : ℚ) (orders : ℕ) : FinResults :=
  let balance_after_repairs := starting_balance - bike_repairs
  let total_expenses := fuel + airtime
  let balance_after_expenses := balance_after_repairs - total_expenses
  let food_purchased := balance_after_expenses - end_of_day_balance
  let closing_balance := end_of_day_balance + payout
  let revenue := closing_balance - balance_after_repairs
  let average_order_value := if orders > 0 then revenue / (orders : ℚ) else 0
  { balanceAfterRepairs := balance_after_repairs
    totalDailyExpenses := total_expenses
    balanceAfterExpenses := balance_after_expenses
    foodPurchased := food_purchased
    closingBalance := closing_balance
    revenue := revenue
    orders := orders
    averageOrderValue := average_order_value }

/-- One day's raw inputs (`DailyEntry` of the spec; the seven values
read from the entry form, source lines 321-347). -/
structure DailyEntry where
  starting_balance : ℚ
  bike_repairs : ℚ
  fuel : ℚ
  airtime : ℚ
  end_of_day_balance : ℚ
  payout : ℚ
  orders : ℕ
deriving Repr, DecidableEq

/-- `derive` of the spec: `calculate_financials` applied to the seven
fields of a `DailyEntry` (as at source lines 361-364). -/
def derive (e : DailyEntry) : FinResults :=
  calculate_financials e.starting_balance e.bike_repairs e.fuel e.airtime
    e.end_of_day_balance e.payout e.orders

/-- C1: `calculate_financials` returns exactly the fixed formula chain
(balance after repairs, total expenses, balance after expenses, food
purchased, closing balance, revenue), and on the inputs of example
scenario 1 it returns exactly the listed values (with average order
value `47161/75 = 628.8133...`). -/
theorem calculate_financials_formula_chain :
    (∀ (sb br fu air eod po : ℚ) (od : ℕ),
      (calculate_financials sb br fu air eod po od).balanceAfterRepairs = sb - br ∧
      (calculate_financials sb br fu air eod po od).totalDailyExpenses = fu + air ∧
      (calculate_financials sb br fu air eod po od).balanceAfterExpenses
        = (sb - br) - (fu + air) ∧
      (calculate_financials sb br fu air eod po od).foodPurchased
        = ((sb - br) - (fu + air)) - eod ∧
      (calculate_financials sb br fu air eod po od).closingBalance = eod + po ∧
      (calculate_financials sb br fu air eod po od).revenue
        = (eod + po) - (sb - br)) ∧
    calculate_financials 478411 22500 10000 1000 149472 353600 75 =
      { balanceAfterRepairs := 455911
        totalDailyExpenses := 11000
        balanceAfterExpenses := 444911
        foodPurchased := 295439
        closingBalance := 503072
        revenue := 47161
        orders := 75
        averageOrderValue := 47161 / 75 } := by
  constructor
  · intro sb br fu air eod po od
    refine ⟨rfl, rfl, rfl, rfl, rfl, rfl⟩
  · show FinResults.mk _ _ _ _ _ _ _ _ = _
    norm_num [calculate_financials]

/-- C2: when `orders = 0`, `calculate_financials` returns average order
value `0`; the division `revenue / orders` sits only under the
`orders > 0` guard, so the zero-orders case never divides. -/
theorem calculate_financials_zero_orders (sb br fu air eod po : ℚ) (od : ℕ)
    (h : od = 0) :
    (calculate_financials sb br fu air eod po od).averageOrderValue = 0 := by
  subst h
  simp [calculate_financials]

/-- Witness for C2 at concrete inputs. -/
theorem calculate_financials_zero_orders_witness :
    (calculate_financials 1000 50 20 10 300 700 0).averageOrderValue = 0 :=
  calculate_financials_zero_orders 1000 50 20 10 300 700 0 rfl

/-- C8: `derive` is deterministic — it is a pure function of the seven
fields of its `DailyEntry`, so identical entries yield identical
`FinResults` (no randomness, no time-of-day dependence: the embedding
takes no other input). -/
theorem derive_deterministic (e₁ e₂ : DailyEntry) (h : e₁ = e₂) :
    derive e₁ = derive e₂ := by
  subst h
  rfl

/-- Witness for C8 at a concrete entry. -/
theorem derive_deterministic_witness :
    derive ⟨478411, 22500, 10000, 1000, 149472, 353600, 75⟩ =
      derive ⟨478411, 22500, 10000, 1000, 149472, 353600, 75⟩ :=
  derive_deterministic _ _ rfl

/-! ## Calendar dates and ISO-8601 strings

The ledger's `Date` column holds pandas timestamps that every code
path constructs at midnight (from `report_date.strftime('%Y-%m-%d')`
or `pd.to_datetime` of a `YYYY-MM-DD` string), so a stored date is
modelled by its civil triple. -/

/-- A civil calendar date (year, month, day). -/
structure Date where
  year : ℕ
  month : ℕ
  day : ℕ
deriving Repr, DecidableEq

/-- Gregorian leap-year test. -/
def isLeap (y : ℕ) : Bool :=
  y % 4 = 0 ∧ (y % 100 ≠ 0 ∨ y % 400 = 0)

/-- Number of days in a month of the Gregorian calendar. -/
def daysInMonth (y m : ℕ) : ℕ :=
  if m = 2 then (if isLeap y then 29 else 28)
  else if m = 4 ∨ m = 6 ∨ m = 9 ∨ m = 11 then 30
  else 31

/-- Dates representable by a four-digit-year ISO string and valid on
the Gregorian calendar (what `datetime.date` / `pd.Timestamp` carry). -/
def ValidDate (d : Date) : Prop :=
  1 ≤ d.year ∧ d.year ≤ 9999 ∧ 1 ≤ d.month ∧ d.month ≤ 12 ∧
    1 ≤ d.day ∧ d.day ≤ daysInMonth d.year d.month

instance (d : Date) : Decidable (ValidDate d) := by
  unfold ValidDate; infer_instance

/-- The ASCII character of a decimal digit. -/
def digitChar (d : ℕ) : Char := Char.ofNat (48 + d)

/-- Decimal digit string of `n`, zero-padded on the left to width `w`
(the behaviour of `strftime`'s `%Y`/`%m`/`%d` fields). -/
def padDigits (w n : ℕ) : List Char :=
  let ds := ((Nat.digits 10 n).reverse).map digitChar
  List.replicate (w - ds.length) '0' ++ ds

/-- Parse a non-empty all-digit character run as a natural number. -/
def parseDigits (cs : List Char) : Option ℕ :=
  if cs ≠ [] ∧ cs.all Char.isDigit then
    some (Nat.ofDigits 10 ((cs.map fun c => c.toNat - 48).reverse))
  else none

/-- `strftime('%Y-%m-%d')`: the ISO-8601 rendering of a date. -/
def printIsoDate (d : Date) : String :=
  String.mk (padDigits 4 d.year ++ '-' :: (padDigits 2 d.month ++ '-' :: padDigits 2 d.day))

/-- `pd.to_datetime` on a `YYYY-MM-DD` string: fixed-width fields,
literal dashes, digits only, and calendar validation.  (pandas further
bounds years to its nanosecond-timestamp range; that extra bound is
not modelled, it only shrinks the accepted set.) -/
def parseIsoDate (s : String) : Option Date :=
  let cs := s.data
  if cs.length = 10 ∧ (cs.drop 4).take 1 = ['-'] ∧ (cs.drop 7).take 1 = ['-'] then
    match parseDigits (cs.take 4), parseDigits ((cs.drop 5).take 2),
        parseDigits (cs.drop 8) with
    | some y, some m, some dd =>
      if 1 ≤ y ∧ y ≤ 9999 ∧ 1 ≤ m ∧ m ≤ 12 ∧ 1 ≤ dd ∧ dd ≤ daysInMonth y m then
        some ⟨y, m, dd⟩
      else none
    | _, _, _ => none
  else none

lemma daysInMonth_le_31 (y m : ℕ) : daysInMonth y m ≤ 31 := by
  unfold daysInMonth
  split_ifs <;> omega

lemma digits_len_le_of_lt_pow {n w : ℕ} (h : n < 10 ^ w) :
    (Nat.digits 10 n).length ≤ w := by
  by_contra hlt
  push_neg at hlt
  rcases Nat.eq_zero_or_pos n with hn | hn
  · subst hn; simp at hlt
  · have hb : (10 : ℕ) ^ (Nat.digits 10 n).length ≤ 10 * n :=
      Nat.base_pow_length_digits_le 10 n (by norm_num) hn.ne'
    have h1 : (10 : ℕ) ^ (w + 1) ≤ 10 ^ (Nat.digits 10 n).length :=
      Nat.pow_le_pow_right (by norm_num) hlt
    have h2 : (10 : ℕ) * 10 ^ w ≤ 10 * n := by
      calc (10 : ℕ) * 10 ^ w = 10 ^ (w + 1) := by ring
        _ ≤ 10 ^ (Nat.digits 10 n).length := h1
        _ ≤ 10 * n := hb
    have := Nat.le_of_mul_le_mul_left h2 (by norm_num)
    omega

lemma padDigits_length {w n : ℕ} (h : n < 10 ^ w) :
    (padDigits w n).length = w := by
  have hlen : ((Nat.digits 10 n).reverse.map digitChar).length ≤ w := by
    simpa using digits_len_le_of_lt_pow h
  simp only [padDigits, List.length_append, List.length_replicate]
  omega

lemma digitChar_isDigit : ∀ d < 10, (digitChar d).isDigit = true := by decide

lemma digitChar_toNat_sub : ∀ d < 10, (digitChar d).toNat - 48 = d := by decide

lemma ofDigits_replicate_zero (b k : ℕ) :
    Nat.ofDigits b (List.replicate k 0) = 0 := by
  induction k with
  | zero => simp [Nat.ofDigits]
  | succ k ih => simp [List.replicate_succ, Nat.ofDigits_cons, ih]

lemma parseDigits_padDigits {w n : ℕ} (h : n < 10 ^ w) (hw : 0 < w) :
    parseDigits (padDigits w n) = some n := by
  have hne : padDigits w n ≠ [] := by
    intro hcon
    have := padDigits_length h
    rw [hcon] at this
    simp at this
    omega
  have hdig : ∀ x ∈ Nat.digits 10 n, x < 10 := fun x hx =>
    Nat.digits_lt_base (by norm_num) hx
  have hall : (padDigits w n).all Char.isDigit = true := by
    rw [List.all_eq_true]
    intro c hc
    unfold padDigits at hc
    simp only [List.mem_append, List.mem_replicate, List.mem_map,
      List.mem_reverse] at hc
    rcases hc with ⟨_, rfl⟩ | ⟨x, hx, rfl⟩
    · decide
    · exact digitChar_isDigit x (hdig x hx)
  unfold parseDigits
  rw [if_pos ⟨hne, hall⟩]
  congr 1
  have hmap : (padDigits w n).map (fun c => c.toNat - 48)
      = List.replicate (w - ((Nat.digits 10 n).reverse.map digitChar).length) 0
        ++ (Nat.digits 10 n).reverse := by
    unfold padDigits
    rw [List.map_append, List.map_replicate, List.map_map]
    have h0 : ('0' : Char).toNat - 48 = 0 := by decide
    rw [h0]
    congr 1
    calc ((Nat.digits 10 n).reverse).map ((fun c => c.toNat - 48) ∘ digitChar)
        = ((Nat.digits 10 n).reverse).map id :=
          List.map_congr_left (fun x hx => by
            rw [List.mem_reverse] at hx
            simpa [Function.comp] using digitChar_toNat_sub x (hdig x hx))
      _ = (Nat.digits 10 n).reverse := List.map_id _
  rw [hmap, List.reverse_append, List.reverse_reverse, List.reverse_replicate,
    Nat.ofDigits_append, ofDigits_replicate_zero, Nat.ofDigits_digits]
  ring

/-- Printing a valid date and parsing it back is the identity: the
ISO-8601 `YYYY-MM-DD` round trip. -/
lemma parseIsoDate_printIsoDate {d : Date} (h : ValidDate d) :
    parseIsoDate (printIsoDate d) = some d := by
  obtain ⟨hy1, hy2, hm1, hm2, hd1, hd2⟩ := h
  have hy : d.year < 10 ^ 4 := by omega
  have hm : d.month < 10 ^ 2 := by omega
  have hdd : d.day < 10 ^ 2 := by
    have := daysInMonth_le_31 d.year d.month
    omega
  have l4 : (padDigits 4 d.year).length = 4 := padDigits_length hy
  have l2m : (padDigits 2 d.month).length = 2 := padDigits_length hm
  have l2d : (padDigits 2 d.day).length = 2 := padDigits_length hdd
  set p4 := padDigits 4 d.year with hp4
  set p2m := padDigits 2 d.month with hp2m
  set p2d := padDigits 2 d.day with hp2d
  have hdata : (printIsoDate d).data = p4 ++ '-' :: (p2m ++ '-' :: p2d) := rfl
  unfold parseIsoDate
  rw [hdata]
  have hlen : (p4 ++ '-' :: (p2m ++ '-' :: p2d)).length = 10 := by
    simp [l4, l2m, l2d]
  have hdrop4 : (p4 ++ '-' :: (p2m ++ '-' :: p2d)).drop 4
      = '-' :: (p2m ++ '-' :: p2d) := List.drop_left' l4
  have hassoc : p4 ++ '-' :: (p2m ++ '-' :: p2d)
      = (p4 ++ '-' :: p2m) ++ '-' :: p2d := by simp
  have hdrop7 : (p4 ++ '-' :: (p2m ++ '-' :: p2d)).drop 7 = '-' :: p2d := by
    rw [hassoc]
    exact List.drop_left' (by simp [l4, l2m])
  have htake4 : (p4 ++ '-' :: (p2m ++ '-' :: p2d)).take 4 = p4 :=
    List.take_left' l4
  have hdrop5 : (p4 ++ '-' :: (p2m ++ '-' :: p2d)).drop 5 = p2m ++ '-' :: p2d := by
    have : p4 ++ '-' :: (p2m ++ '-' :: p2d)
        = (p4 ++ ['-']) ++ (p2m ++ '-' :: p2d) := by simp
    rw [this]
    exact List.drop_left' (by simp [l4])
  have htake2m : (p2m ++ '-' :: p2d).take 2 = p2m := List.take_left' l2m
  have hdrop8 : (p4 ++ '-' :: (p2m ++ '-' :: p2d)).drop 8 = p2d := by
    have : p4 ++ '-' :: (p2m ++ '-' :: p2d)
        = ((p4 ++ '-' :: p2m) ++ ['-']) ++ p2d := by simp
    rw [this]
    exact List.drop_left' (by simp [l4, l2m])
  rw [if_pos ⟨hlen, by rw [hdrop4]; rfl, by rw [hdrop7]; rfl⟩]
  rw [htake4, hdrop5, htake2m, hdrop8]
  rw [hp4, hp2m, hp2d,
    parseDigits_padDigits hy (by norm_num),
    parseDigits_padDigits hm (by norm_num),
    parseDigits_padDigits hdd (by norm_num)]
  simp only []
  rw [if_pos ⟨hy1, hy2, hm1, hm2, hd1, hd2⟩]

/-! ## The ledger: one row per date, upsert, CSV serialisation -/

/-- One row of the `financial_data` DataFrame: the fifteen persisted
columns (source lines 155-171). -/
structure LedgerRecord where
  date : Date
  starting_balance : ℚ
  bike_repairs : ℚ
  fuel : ℚ
  airtime : ℚ
  end_of_day_balance : ℚ
  payout : ℚ
  orders : ℕ
  balance_after_repairs : ℚ
  total_expenses : ℚ
  balance_after_expenses : ℚ
  food_purchased : ℚ
  closing_balance : ℚ
  revenue : ℚ
  average_order_value : ℚ
deriving Repr, DecidableEq

/-- The single-row DataFrame that `save_to_csv` builds from
`data_dict` (raw entry merged with `calculate_financials` results) and
the formatted `report_date`. -/
def mkLedgerRecord (report_date : Date) (e : DailyEntry) (r : FinResults) :
    LedgerRecord where
  date := report_date
  starting_balance := e.starting_balance
  bike_repairs := e.bike_repairs
  fuel := e.fuel
  airtime := e.airtime
  end_of_day_balance := e.end_of_day_balance
  payout := e.payout
  orders := r.orders
  balance_after_repairs := r.balanceAfterRepairs
  total_expenses := r.totalDailyExpenses
  balance_after_expenses := r.balanceAfterExpenses
  food_purchased := r.foodPurchased
  closing_balance := r.closingBalance
  revenue := r.revenue
  average_order_value := r.averageOrderValue

/-- The by-date insert-or-replace of `save_to_csv` (source lines
179-197): if any stored row has the new row's date, every matching row
is overwritten with the new row's values (`existing.loc[mask] = df.values`),
otherwise the new row is appended (`pd.concat`). -/
def upsertRow (existing : List LedgerRecord) (row : LedgerRecord) :
    List LedgerRecord :=
  if existing.any fun rec => decide (rec.date = row.date) then
    existing.map fun rec => if rec.date = row.date then row else rec
  else existing ++ [row]

/-- Header line of `to_csv(index=False)`: the fifteen column names. -/
def csvHeaderLine : String :=
  "Date,Starting Balance,Bike Repairs,Fuel,Airtime,End of Day Balance,Payout,Orders,Balance After Repairs,Total Expenses,Balance After Expenses,Food Purchased,Closing Balance,Revenue,Average Order Value"

/-- One CSV data row.  Numeric cells are rendered with the canonical
rational `toString`; the decimal formatting pandas applies to floats
is immaterial to the claims, which concern *which rows* appear. -/
def recordToCsvRow (r : LedgerRecord) : String :=
  String.intercalate "," [printIsoDate r.date,
    toString r.starting_balance, toString r.bike_repairs, toString r.fuel,
    toString r.airtime, toString r.end_of_day_balance, toString r.payout,
    toString r.orders, toString r.balance_after_repairs,
    toString r.total_expenses, toString r.balance_after_expenses,
    toString r.food_purchased, toString r.closing_balance,
    toString r.revenue, toString r.average_order_value]

/-- `DataFrame.to_csv(index=False)`: header line then one line per
stored row, each newline-terminated. -/
def ledger_to_csv (l : List LedgerRecord) : String :=
  csvHeaderLine ++ "\n" ++ String.join (l.map fun rec => recordToCsvRow rec ++ "\n")

/-- Embedding of `save_to_csv` (source lines 141-205): build the row,
upsert it into the session ledger (initialising the ledger with just
the row when no session data exists), and return the new ledger
together with the CSV serialisation of the *whole* ledger. -/
def save_to_csv (session : Option (List LedgerRecord)) (e : DailyEntry)
    (res : FinResults) (report_date : Date) : List LedgerRecord × String :=
  let df := mkLedgerRecord report_date e res
  let newData :=
    match session with
    | none => [df]
    | some existing => upsertRow existing df
  (newData, ledger_to_csv newData)

lemma filter_map_replace (l : List LedgerRecord) (row : LedgerRecord) :
    (l.map fun rec => if rec.date = row.date then row else rec).filter
        (fun rec => decide (rec.date = row.date))
      = (l.filter fun rec => decide (rec.date = row.date)).map fun _ => row := by
  induction l with
  | nil => rfl
  | cons a t ih =>
    by_cases ha : a.date = row.date
    · simp [List.filter_cons, ha, ih]
    · simp [List.filter_cons, ha, ih]

lemma upsertRow_filter (l : List LedgerRecord) (row : LedgerRecord) (D : Date)
    (hd : row.date = D)
    (h : (l.filter fun rec => decide (rec.date = D)).length ≤ 1) :
    (upsertRow l row).filter (fun rec => decide (rec.date = D)) = [row] := by
  subst hd
  unfold upsertRow
  by_cases hany : l.any (fun rec => decide (rec.date = row.date)) = true
  · rw [if_pos hany, filter_map_replace l row]
    have hne : l.filter (fun rec => decide (rec.date = row.date)) ≠ [] := by
      rw [ne_eq, List.filter_eq_nil_iff]
      push_neg
      rw [List.any_eq_true] at hany
      obtain ⟨x, hx, hxd⟩ := hany
      rw [decide_eq_true_eq] at hxd
      exact ⟨x, hx, by simp [hxd]⟩
    have hlen : (l.filter fun rec => decide (rec.date = row.date)).length = 1 := by
      have := List.length_pos.mpr hne
      omega
    obtain ⟨a, ha⟩ := List.length_eq_one.mp hlen
    rw [ha]
    rfl
  · rw [if_neg hany, List.filter_append]
    have hnil : l.filter (fun rec => decide (rec.date = row.date)) = [] := by
      rw [List.filter_eq_nil_iff]
      intro a hal
      rw [Bool.not_eq_true] at hany
      exact List.any_eq_false.mp hany a hal
    rw [hnil]
    simp [List.filter_cons]

/-- C3: submitting a record for date `D` and then a second, different
record for the same date (two `save_to_csv` calls threaded through the
session ledger) leaves exactly one record for `D`, all of whose fields
are the second submission's — full replacement, not a merge. -/
theorem save_to_csv_upsert_replace (ledger : List LedgerRecord) (D : Date)
    (e₁ e₂ : DailyEntry) (r₁ r₂ : FinResults)
    (huniq : (ledger.filter fun rec => decide (rec.date = D)).length ≤ 1)
    (_hne : mkLedgerRecord D e₂ r₂ ≠ mkLedgerRecord D e₁ r₁) :
    ((save_to_csv (some ((save_to_csv (some ledger) e₁ r₁ D).1)) e₂ r₂ D).1).filter
        (fun rec => decide (rec.date = D)) = [mkLedgerRecord D e₂ r₂] := by
  have h₁ : (save_to_csv (some ledger) e₁ r₁ D).1 = upsertRow ledger (mkLedgerRecord D e₁ r₁) := rfl
  have h₂ : (save_to_csv (some ((save_to_csv (some ledger) e₁ r₁ D).1)) e₂ r₂ D).1
      = upsertRow (upsertRow ledger (mkLedgerRecord D e₁ r₁)) (mkLedgerRecord D e₂ r₂) := rfl
  rw [h₂]
  refine upsertRow_filter _ _ _ ?_ ?_
  · rfl
  · rw [upsertRow_filter ledger (mkLedgerRecord D e₁ r₁) D
      (show (mkLedgerRecord D e₁ r₁).date = D from rfl) huniq]
    simp

/-- Witness for C3 at concrete inputs. -/
theorem save_to_csv_upsert_replace_witness :
    ((save_to_csv
        (some ((save_to_csv (some []) ⟨100, 1, 2, 3, 40, 50, 6⟩ ⟨99, 5, 94, 54, 90, -9, 6, 0⟩
          ⟨2026, 10, 5⟩).1))
        ⟨200, 1, 2, 3, 40, 50, 7⟩ ⟨199, 5, 194, 154, 90, -109, 7, 0⟩ ⟨2026, 10, 5⟩).1).filter
      (fun rec => decide (rec.date = ⟨2026, 10, 5⟩))
      = [mkLedgerRecord ⟨2026, 10, 5⟩ ⟨200, 1, 2, 3, 40, 50, 7⟩ ⟨199, 5, 194, 154, 90, -109, 7, 0⟩] :=
  save_to_csv_upsert_replace [] ⟨2026, 10, 5⟩
    ⟨100, 1, 2, 3, 40, 50, 6⟩ ⟨200, 1, 2, 3, 40, 50, 7⟩
    ⟨99, 5, 94, 54, 90, -9, 6, 0⟩ ⟨199, 5, 194, 154, 90, -109, 7, 0⟩
    (by decide) (by decide)

/-- C10: the string `save_to_csv` returns is the CSV serialisation of
the entire post-upsert ledger — the header line followed by one row
for *every* stored record, not only the submitted date's row. -/
theorem save_to_csv_returns_whole_ledger (session : Option (List LedgerRecord))
    (e : DailyEntry) (res : FinResults) (report_date : Date) :
    (save_to_csv session e res report_date).2
      = csvHeaderLine ++ "\n"
        ++ String.join (((save_to_csv session e res report_date).1).map
              fun rec => recordToCsvRow rec ++ "\n") := by
  cases session <;> rfl

/-! ## Merge / import of an uploaded CSV batch -/

/-- `DataFrame.drop_duplicates(subset=['Date'])`: keep the *first*
occurrence of each date, preserving order. -/
def dedupByDate : List LedgerRecord → List LedgerRecord
  | [] => []
  | r :: rs => r :: dedupByDate (rs.filter fun x => decide (x.date ≠ r.date))
termination_by l => l.length
decreasing_by
  simp only [List.length_cons]
  have := List.length_filter_le (fun x => decide (x.date ≠ r.date)) rs
  omega

/-- The import/merge of source lines 505-507 and 809-812:
`pd.concat([existing, imported])` followed by
`drop_duplicates(subset=['Date'])` — existing rows come first. -/
def mergeImport (existing imported : List LedgerRecord) : List LedgerRecord :=
  dedupByDate (existing ++ imported)

lemma dedupByDate_filter (l : List LedgerRecord) (D : Date) :
    (dedupByDate l).filter (fun x => decide (x.date = D))
      = (l.filter fun x => decide (x.date = D)).take 1 := by
  induction l using dedupByDate.induct with
  | case1 => simp [dedupByDate]
  | case2 r rs ih =>
    rw [dedupByDate]
    by_cases hr : r.date = D
    · subst hr
      have hnil : (rs.filter fun x => decide (x.date ≠ r.date)).filter
          (fun x => decide (x.date = r.date)) = [] := by
        rw [List.filter_filter, List.filter_eq_nil_iff]
        intro a _
        by_cases ha : a.date = r.date <;> simp [ha]
      have hT : decide (r.date = r.date) = true := by simp
      rw [List.filter_cons, List.filter_cons, hT, if_pos rfl, if_pos rfl, ih, hnil]
      rfl
    · rw [List.filter_cons, List.filter_cons]
      have hrd : decide (r.date = D) = false := by simp [hr]
      rw [hrd]
      simp only [Bool.false_eq_true, if_false]
      rw [ih, List.filter_filter]
      congr 1
      apply List.filter_congr
      intro x _
      by_cases hx : x.date = D
      · have hDr : D ≠ r.date := fun hc => hr hc.symm
        simp [hx, hDr]
      · simp [hx]

/-- C4 counterexample: merging an imported batch that shares date
2026-10-05 with the existing ledger keeps the *existing* record, not
the imported one (pandas `drop_duplicates` keeps the first occurrence
and existing rows are concatenated first). -/
theorem mergeImport_imported_wins_counterexample :
    mergeImport [⟨⟨2026, 10, 5⟩, 1, 0, 0, 0, 0, 0, 10, 1, 0, 1, 1, 0, 100, 10⟩]
        [⟨⟨2026, 10, 5⟩, 2, 0, 0, 0, 0, 0, 20, 2, 0, 2, 2, 0, 200, 10⟩]
      = [⟨⟨2026, 10, 5⟩, 1, 0, 0, 0, 0, 0, 10, 1, 0, 1, 1, 0, 100, 10⟩] ∧
    (⟨⟨2026, 10, 5⟩, 1, 0, 0, 0, 0, 0, 10, 1, 0, 1, 1, 0, 100, 10⟩ : LedgerRecord)
      ≠ ⟨⟨2026, 10, 5⟩, 2, 0, 0, 0, 0, 0, 20, 2, 0, 2, 2, 0, 200, 10⟩ := by
  constructor
  · rw [mergeImport]
    rw [List.cons_append, List.nil_append, dedupByDate]
    norm_num [dedupByDate]
  · decide

/-- C4 amended: the merge deduplicates by date — at most one record
per date in the result — and for every date present in the existing
ledger (in particular every date present in both), the record kept is
the *existing* one, because existing rows precede imported rows in the
concatenation and `drop_duplicates` keeps the first occurrence. -/
theorem mergeImport_existing_wins (existing imported : List LedgerRecord)
    (D : Date) (r : LedgerRecord)
    (hex : existing.filter (fun x => decide (x.date = D)) = [r]) :
    (mergeImport existing imported).filter (fun x => decide (x.date = D)) = [r] ∧
    ∀ D' : Date,
      ((mergeImport existing imported).filter fun x => decide (x.date = D')).length ≤ 1 := by
  constructor
  · rw [mergeImport, dedupByDate_filter, List.filter_append, hex]
    rfl
  · intro D'
    rw [mergeImport, dedupByDate_filter]
    exact List.length_take_le _ _

/-- Witness for C4's amended theorem at concrete inputs. -/
theorem mergeImport_existing_wins_witness :
    (mergeImport [⟨⟨2026, 10, 5⟩, 1, 0, 0, 0, 0, 0, 10, 1, 0, 1, 1, 0, 100, 10⟩]
        [⟨⟨2026, 10, 5⟩, 2, 0, 0, 0, 0, 0, 20, 2, 0, 2, 2, 0, 200, 10⟩]).filter
      (fun x => decide (x.date = ⟨2026, 10, 5⟩))
      = [⟨⟨2026, 10, 5⟩, 1, 0, 0, 0, 0, 0, 10, 1, 0, 1, 1, 0, 100, 10⟩] ∧
    ∀ D' : Date,
      ((mergeImport [⟨⟨2026, 10, 5⟩, 1, 0, 0, 0, 0, 0, 10, 1, 0, 1, 1, 0, 100, 10⟩]
          [⟨⟨2026, 10, 5⟩, 2, 0, 0, 0, 0, 0, 20, 2, 0, 2, 2, 0, 200, 10⟩]).filter
        fun x => decide (x.date = D')).length ≤ 1 :=
  mergeImport_existing_wins _ _ ⟨2026, 10, 5⟩ _ (by decide)

/-! ## Timestamps and period filtering

`pd.Timestamp.today()` carries a time of day; stored `Date` cells are
midnight instants.  A timestamp is a civil date plus seconds since
midnight, ordered by its count of seconds since the Unix epoch
(pandas orders timestamps by their nanosecond count; the second
granularity is enough for the claims, which need only "midnight versus
later the same day"). -/

/-- Days since 0000-03-01 of a civil date (standard Gregorian
day-count algorithm; all uses have `year ≥ 1`). -/
def daysFromCivil (y m d : ℕ) : ℕ :=
  let y' := y - (if m ≤ 2 then 1 else 0)
  let era := y' / 400
  let yoe := y' % 400
  let mp := if 2 < m then m - 3 else m + 9
  let doy := (153 * mp + 2) / 5 + d - 1
  let doe := yoe * 365 + yoe / 4 - yoe / 100 + doy
  era * 146097 + doe

/-- Days since the Unix epoch 1970-01-01. -/
def Date.dayNumber (d : Date) : ℤ :=
  (daysFromCivil d.year d.month d.day : ℤ) - 719468

/-- Inverse of `Date.dayNumber` (standard civil-from-days algorithm). -/
def dateOfDayNumber (z : ℤ) : Date :=
  let z' := (z + 719468).toNat
  let era := z' / 146097
  let doe := z' % 146097
  let yoe := (doe - doe / 1460 + doe / 36524 - doe / 146097) / 365
  let y := yoe + era * 400
  let doy := doe - (365 * yoe + yoe / 4 - yoe / 100)
  let mp := (5 * doy + 2) / 153
  let dd := doy - (153 * mp + 2) / 5 + 1
  let m := if mp < 10 then mp + 3 else mp - 9
  ⟨y + (if m ≤ 2 then 1 else 0), m, dd⟩

/-- `Timestamp.dayofweek` of pandas: Monday = 0.  (1970-01-01,
day number 0, was a Thursday, value 3.) -/
def Date.dayOfWeek (d : Date) : ℕ := ((d.dayNumber + 3) % 7).toNat

/-- A pandas timestamp: civil date plus seconds since midnight. -/
structure Timestamp where
  date : Date
  tod : ℕ
deriving Repr, DecidableEq

/-- Seconds since the Unix epoch; pandas timestamp order and equality
are the order and equality of this count. -/
def Timestamp.toSec (t : Timestamp) : ℤ := 86400 * t.date.dayNumber + t.tod

/-- `t - pd.Timedelta(days=n)`: shifts the date, keeps the time of day. -/
def Timestamp.subDays (t : Timestamp) (n : ℕ) : Timestamp :=
  ⟨dateOfDayNumber (t.date.dayNumber - n), t.tod⟩

/-- Embedding of `filter_data_by_period` (source lines 233-263) with
the call-time `pd.Timestamp.today()` made an explicit argument `now`.
A stored `Date` cell is the midnight timestamp of its date.  The
`week` and `month` thresholds keep `now`'s time of day (the source
never normalises them); only the `day` branch normalises. -/
def filter_data_by_period (now : Timestamp) (data : List LedgerRecord)
    (period : String) : List LedgerRecord :=
  if period = "week" then
    let start_of_week := now.subDays now.date.dayOfWeek
    data.filter fun r => decide (start_of_week.toSec ≤ (Timestamp.mk r.date 0).toSec)
  else if period = "month" then
    let start_of_month : Timestamp := ⟨⟨now.date.year, now.date.month, 1⟩, now.tod⟩
    data.filter fun r => decide (start_of_month.toSec ≤ (Timestamp.mk r.date 0).toSec)
  else if period = "day" then
    let today : Timestamp := ⟨now.date, 0⟩
    data.filter fun r => decide (Timestamp.mk r.date 0 = today)
  else data

/-- C5 evaluated at the failing input: at call time 2026-10-12 12:00,
the `"month"` filter drops a record dated 2026-10-01 — the first day
of the current calendar month — because the threshold
`today.replace(day=1)` keeps the call's time of day (12:00), which the
record's midnight timestamp does not reach.  The spec's
`date >= first_of_current_calendar_month` requires the record to be
returned. -/
theorem filter_month_drops_first_of_month :
    filter_data_by_period ⟨⟨2026, 10, 12⟩, 43200⟩
        [⟨⟨2026, 10, 1⟩, 0, 0, 0, 0, 0, 0, 0, 0, 0, 0, 0, 0, 0, 0⟩] "month" = [] ∧
    (⟨⟨2026, 10, 1⟩, 0, 0, 0, 0, 0, 0, 0, 0, 0, 0, 0, 0, 0, 0⟩ : LedgerRecord).date
      = ⟨2026, 10, 1⟩ := by
  constructor
  · decide
  · rfl

/-! ## Summary aggregation -/

/-- The summary dictionary of `generate_summary` (source lines
223-229). -/
structure Summary where
  total_revenue : ℚ
  average_daily_revenue : ℚ
  total_orders : ℕ
  average_daily_orders : ℚ
  average_order_value : ℚ
deriving Repr, DecidableEq

/-- Embedding of `generate_summary` (source lines 208-231): empty data
yields the empty dictionary (`none`); otherwise an optional
week/month filter is applied (same thresholds as
`filter_data_by_period`) and the five statistics are computed.
`mean` of an empty filtered frame is NaN in pandas; that case is
unreachable in the claims (they use `period = none`), and the `ℚ`
embedding renders the division by zero as `0`. -/
def generate_summary (now : Timestamp) (data : List LedgerRecord)
    (period : Option String) : Option Summary :=
  if data.isEmpty then none
  else
    let filtered :=
      if period = some "week" then
        let start_of_week := now.subDays now.date.dayOfWeek
        data.filter fun r => decide (start_of_week.toSec ≤ (Timestamp.mk r.date 0).toSec)
      else if period = some "month" then
        let start_of_month : Timestamp := ⟨⟨now.date.year, now.date.month, 1⟩, now.tod⟩
        data.filter fun r => decide (start_of_month.toSec ≤ (Timestamp.mk r.date 0).toSec)
      else data
    let revSum := (filtered.map fun r => r.revenue).sum
    let ordSum := (filtered.map fun r => r.orders).sum
    some { total_revenue := revSum
           average_daily_revenue := revSum / filtered.length
           total_orders := ordSum
           average_daily_orders := (ordSum : ℚ) / filtered.length
           average_order_value := if 0 < ordSum then revSum / (ordSum : ℚ) else 0 }

/-- C6: on non-empty data with no period filter, `generate_summary`
returns total revenue = the sum of the `Revenue` fields, total orders
= the sum of the `Orders` fields, and average order value = the
aggregate ratio `total_revenue / total_orders` when `total_orders > 0`
and `0` otherwise (not the mean of the per-record average order
values). -/
theorem generate_summary_totals (now : Timestamp) (data : List LedgerRecord)
    (h : data ≠ []) :
    generate_summary now data none
      = some { total_revenue := (data.map fun r => r.revenue).sum
               average_daily_revenue := (data.map fun r => r.revenue).sum / data.length
               total_orders := (data.map fun r => r.orders).sum
               average_daily_orders :=
                 ((((data.map fun r => r.orders).sum : ℕ) : ℚ)) / data.length
               average_order_value :=
                 if 0 < (data.map fun r => r.orders).sum then
                   (data.map fun r => r.revenue).sum
                     / ((((data.map fun r => r.orders).sum : ℕ) : ℚ))
                 else 0 } := by
  unfold generate_summary
  rw [if_neg (by simp [List.isEmpty_iff, h])]
  rfl

/-- Witness for C6 at concrete inputs: two records with differing
order counts; the aggregate ratio is `150/40`, not the mean
`(10 + 10) / 2` of the per-record average order values. -/
theorem generate_summary_totals_witness :
    generate_summary ⟨⟨2026, 10, 12⟩, 0⟩
        [⟨⟨2026, 10, 5⟩, 0, 0, 0, 0, 0, 0, 10, 0, 0, 0, 0, 0, 100, 10⟩,
         ⟨⟨2026, 10, 6⟩, 0, 0, 0, 0, 0, 0, 30, 0, 0, 0, 0, 0, 50, 5 / 3⟩] none
      = some { total_revenue := 150
               average_daily_revenue := 75
               total_orders := 40
               average_daily_orders := 20
               average_order_value := 15 / 4 } := by
  rw [generate_summary_totals _ _ (by decide)]
  norm_num

/-! ## JSON file persistence

`save_data_to_file` writes `data.to_dict('records')` as JSON with the
`Date` column rendered by `strftime('%Y-%m-%d')`; `load_data_from_file`
reads it back inside a catch-all `try`, parsing dates with
`pd.to_datetime`.  `json.dump`/`json.load` round-trip Python floats
exactly (shortest-repr), so the numeric fields carry over unchanged in
the `ℚ` model. -/

/-- One element of the JSON records list: the `Date` cell as its
ISO string, the fourteen numeric cells unchanged. -/
structure JsonRecord where
  dateStr : String
  starting_balance : ℚ
  bike_repairs : ℚ
  fuel : ℚ
  airtime : ℚ
  end_of_day_balance : ℚ
  payout : ℚ
  orders : ℕ
  balance_after_repairs : ℚ
  total_expenses : ℚ
  balance_after_expenses : ℚ
  food_purchased : ℚ
  closing_balance : ℚ
  revenue : ℚ
  average_order_value : ℚ
deriving Repr, DecidableEq

/-- The serialised form of one ledger row (`strftime` on the date,
`to_dict` on the rest). -/
def recordToJson (r : LedgerRecord) : JsonRecord where
  dateStr := printIsoDate r.date
  starting_balance := r.starting_balance
  bike_repairs := r.bike_repairs
  fuel := r.fuel
  airtime := r.airtime
  end_of_day_balance := r.end_of_day_balance
  payout := r.payout
  orders := r.orders
  balance_after_repairs := r.balance_after_repairs
  total_expenses := r.total_expenses
  balance_after_expenses := r.balance_after_expenses
  food_purchased := r.food_purchased
  closing_balance := r.closing_balance
  revenue := r.revenue
  average_order_value := r.average_order_value

/-- What `load_data_from_file` can find on disk: no file, a file whose
content raises inside the `try` (unparseable JSON), or a well-formed
records list (possibly empty — `json.dump` always produces one). -/
inductive FileState where
  | missing
  | malformed (err : String)
  | records (rs : List JsonRecord)

/-- Embedding of `save_data_to_file` (source lines 17-35): both the
non-empty and the empty branch write the records list. -/
def save_data_to_file (data : List LedgerRecord) : FileState :=
  .records (data.map recordToJson)

/-- Rebuild one ledger row from its JSON form; fails when the date
string does not parse (`pd.to_datetime` raises). -/
def jsonToRecord (j : JsonRecord) : Option LedgerRecord :=
  match parseIsoDate j.dateStr with
  | some d =>
    some ⟨d, j.starting_balance, j.bike_repairs, j.fuel, j.airtime,
      j.end_of_day_balance, j.payout, j.orders, j.balance_after_repairs,
      j.total_expenses, j.balance_after_expenses, j.food_purchased,
      j.closing_balance, j.revenue, j.average_order_value⟩
  | none => none

/-- `pd.to_datetime` over the whole `Date` column: any bad cell fails
the whole load (the exception is caught by the caller). -/
def parseRecords : List JsonRecord → Option (List LedgerRecord)
  | [] => some []
  | j :: js =>
    match jsonToRecord j, parseRecords js with
    | some r, some rs => some (r :: rs)
    | _, _ => none

/-- The value and debug message `load_data_from_file` leaves behind. -/
structure LoadResult where
  records : List LedgerRecord
  debug_message : String
deriving Repr

/-- Embedding of `load_data_from_file` (source lines 37-57): a missing
file and an empty records list yield an empty frame with an
informational message; any exception (unparseable file, bad date
cells) is caught and yields an empty frame with an error message.
The function is total — no outcome escapes as an exception. -/
def load_data_from_file (fs : FileState) : LoadResult :=
  match fs with
  | .missing => ⟨[], "File does not exist yet"⟩
  | .malformed err => ⟨[], "Error loading data: " ++ err⟩
  | .records [] => ⟨[], "File exists but contains no records"⟩
  | .records (j :: js) =>
    match parseRecords (j :: js) with
    | some l => ⟨l, "Loaded " ++ toString l.length ++ " records from file"⟩
    | none => ⟨[], "Error loading data: invalid date"⟩

lemma jsonToRecord_recordToJson {r : LedgerRecord} (h : ValidDate r.date) :
    jsonToRecord (recordToJson r) = some r := by
  unfold jsonToRecord recordToJson
  rw [parseIsoDate_printIsoDate h]

lemma parseRecords_map_recordToJson (data : List LedgerRecord)
    (hvalid : ∀ r ∈ data, ValidDate r.date) :
    parseRecords (data.map recordToJson) = some data := by
  induction data with
  | nil => rfl
  | cons a t ih =>
    rw [List.map_cons, parseRecords,
      jsonToRecord_recordToJson (hvalid a (List.mem_cons_self a t)),
      ih fun r hr => hvalid r (List.mem_cons_of_mem a hr)]

/-- C7: loading after dumping reproduces the ledger exactly — every
record comes back with all fields equal and its date round-tripped
through the ISO-8601 `YYYY-MM-DD` string (so in particular the result
is set-equal to the original by date). -/
theorem load_after_save_roundtrip (data : List LedgerRecord)
    (hne : data ≠ []) (hvalid : ∀ r ∈ data, ValidDate r.date)
    (_hdates : (data.map fun r => r.date).Nodup) :
    (load_data_from_file (save_data_to_file data)).records = data := by
  match data, hne with
  | d :: ds, _ =>
    show (load_data_from_file (.records (recordToJson d :: ds.map recordToJson))).records
      = d :: ds
    rw [load_data_from_file]
    have := parseRecords_map_recordToJson (d :: ds) hvalid
    rw [List.map_cons] at this
    rw [this]

/-- Witness for C7 at concrete inputs. -/
theorem load_after_save_roundtrip_witness :
    (load_data_from_file (save_data_to_file
        [⟨⟨2026, 9, 30⟩, 100, 1, 2, 3, 40, 50, 6, 99, 5, 94, 54, 90, -9, 0⟩,
         ⟨⟨2026, 10, 5⟩, 200, 1, 2, 3, 40, 50, 7, 199, 5, 194, 154, 90, -109, 0⟩])).records
      = [⟨⟨2026, 9, 30⟩, 100, 1, 2, 3, 40, 50, 6, 99, 5, 94, 54, 90, -9, 0⟩,
         ⟨⟨2026, 10, 5⟩, 200, 1, 2, 3, 40, 50, 7, 199, 5, 194, 154, 90, -109, 0⟩] :=
  load_after_save_roundtrip _ (by decide) (by decide) (by decide)

/-- C9: `load_data_from_file` never raises — it is a total function of
the file state: a missing file yields an empty ledger, an unparseable
file yields an empty ledger with the caught error reported in the
debug message, and a well-formed file with a bad record (here a
garbage date cell) likewise degrades to an empty ledger with an error
message instead of aborting. -/
theorem load_failure_semantics :
    (load_data_from_file .missing).records = [] ∧
    (∀ err : String,
      (load_data_from_file (.malformed err)).records = [] ∧
      (load_data_from_file (.malformed err)).debug_message
        = "Error loading data: " ++ err) ∧
    (load_data_from_file (.records
        [⟨"garbage", 0, 0, 0, 0, 0, 0, 0, 0, 0, 0, 0, 0, 0, 0⟩])).records = [] ∧
    (load_data_from_file (.records
        [⟨"garbage", 0, 0, 0, 0, 0, 0, 0, 0, 0, 0, 0, 0, 0, 0⟩])).debug_message
      = "Error loading data: invalid date" := by
  refine ⟨rfl, fun err => ⟨rfl, rfl⟩, ?_, ?_⟩ <;> decide

end Foobr
